import Mathlib

/-!
Verification of SendDeploy (src/SendDeploy/cli.py) against its design
specification. The Python module is shallowly embedded: the profile store
(JSON persistence), the curses menu loop, the removal/repair logic of the
application driver, the quiet ("repeat-last") mode, and the effect order of
the SCP upload path are all modelled as pure Lean functions over explicit
data, following the source line by line.
-/

namespace SendDeploy

/-- A connection entry as stored in SendDeployV2.json: the dict
{"ssh_ip": ..., "ssh_user": ..., "ssh_password": ..., "remote_path": ...}
built by add_new_entry. -/
structure Entry where
  ssh_ip : String
  ssh_user : String
  ssh_password : String
  remote_path : String
deriving DecidableEq, Repr

/-- The JSON values the configuration file can parse to (the subset produced
and consumed by json.load / json.dump in cli.py). -/
inductive Json where
  | null : Json
  | bool (b : Bool) : Json
  | int (n : Int) : Json
  | str (s : String) : Json
  | arr (xs : List Json) : Json
  | obj (kvs : List (String × Json)) : Json

/-- The possible states of the configuration file that load_entries opens:
the file is absent (open raises FileNotFoundError), present but not valid
JSON (json.load raises JSONDecodeError), or present and parsed to a JSON
value. -/
inductive FileContent where
  | missing : FileContent
  | notJson (raw : String) : FileContent
  | parsed (j : Json) : FileContent

/-- A Python exception that escapes load_entries uncaught (its try block
catches only FileNotFoundError and json.JSONDecodeError). -/
inductive PyError where
  | typeError : PyError
deriving DecidableEq, Repr

/-- Python dict lookup data[k] on a parsed JSON object (json.load produces
dicts with unique keys; duplicate keys keep the last binding, so plain
first-match lookup on the association list produced by our encoder is
faithful). -/
def jLookup (kvs : List (String × Json)) (k : String) : Option Json :=
  (kvs.find? (fun p => p.1 == k)).map (fun p => p.2)

/-- Python membership test k in data for a dict. -/
def hasKey (kvs : List (String × Json)) (k : String) : Bool :=
  (jLookup kvs k).isSome

/-- Whether the character list n is a prefix of h (helper for the Python
substring test on strings). -/
def pfxOf : List Char → List Char → Bool
  | [], _ => true
  | _ :: _, [] => false
  | a :: as, b :: bs => a == b && pfxOf as bs

/-- Whether the character list n occurs inside h. -/
def infxOf (n : List Char) : List Char → Bool
  | [] => pfxOf n []
  | b :: bs => pfxOf n (b :: bs) || infxOf n bs

/-- Python membership test needle in hay for strings: substring search. -/
def pySubstr (needle hay : String) : Bool :=
  infxOf needle.data hay.data

/-- Python membership test s in xs for a list of JSON values: s compares
equal only to an equal str element (a Python str is never == to a number,
list, dict, bool or None). -/
def pyStrInList (s : String) (xs : List Json) : Bool :=
  xs.any (fun j => match j with
    | Json.str t => s == t
    | _ => false)

/-- The default store dict {"entries": [], "last_selected_idx": -1} that
load_entries returns for a missing or unparseable file. -/
def defaultData : Json :=
  Json.obj [("entries", Json.arr []), ("last_selected_idx", Json.int (-1))]

/-- load_entries from cli.py lines 14-34. Opens CONFIG_PATH, parses JSON,
patches in missing "entries" / "last_selected_idx" keys, and returns the
dict; FileNotFoundError and JSONDecodeError are caught and yield the
default. Python's membership test "k in data" and item assignment
data[k] = v behave differently per runtime type of the parsed value:
on a dict they are key test and key insertion; on a str, membership is a
substring test and assignment raises TypeError; on a list, membership
compares elements and assignment with a str index raises TypeError; on
None/bool/int the membership test itself raises TypeError. Those
TypeErrors are not caught by the except clauses and escape as fatal. -/
def load_entries : FileContent → Except PyError Json
  | FileContent.missing => Except.ok defaultData
  | FileContent.notJson _ => Except.ok defaultData
  | FileContent.parsed j =>
    match j with
    | Json.obj kvs =>
      let kvs1 := if hasKey kvs "entries" then kvs
                  else kvs ++ [("entries", Json.arr [])]
      let kvs2 := if hasKey kvs1 "last_selected_idx" then kvs1
                  else kvs1 ++ [("last_selected_idx", Json.int (-1))]
      Except.ok (Json.obj kvs2)
    | Json.str s =>
      if pySubstr "entries" s then
        if pySubstr "last_selected_idx" s then Except.ok (Json.str s)
        else Except.error PyError.typeError
      else Except.error PyError.typeError
    | Json.arr xs =>
      if pyStrInList "entries" xs then
        if pyStrInList "last_selected_idx" xs then
          Except.ok (Json.arr xs)
        else Except.error PyError.typeError
      else Except.error PyError.typeError
    | Json.null => Except.error PyError.typeError
    | Json.bool _ => Except.error PyError.typeError
    | Json.int _ => Except.error PyError.typeError

/-- The JSON encoding of one entry, exactly the dict add_new_entry builds
and json.dump writes. -/
def encodeEntry (e : Entry) : Json :=
  Json.obj [("ssh_ip", Json.str e.ssh_ip),
            ("ssh_user", Json.str e.ssh_user),
            ("ssh_password", Json.str e.ssh_password),
            ("remote_path", Json.str e.remote_path)]

/-- save_entries from cli.py lines 37-50: json.dump of
{"entries": entries, "last_selected_idx": last_selected_idx} over the
configuration file, leaving it parsed content of exactly that shape. -/
def save_entries (entries : List Entry) (last_selected_idx : Int) : FileContent :=
  FileContent.parsed
    (Json.obj [("entries", Json.arr (entries.map encodeEntry)),
               ("last_selected_idx", Json.int last_selected_idx)])

/-- clear_entries from cli.py lines 53-59: save an empty list and index -1. -/
def clear_entries : FileContent :=
  save_entries [] (-1)

/-- Reading an entry dict back from JSON the way the application consumes it
(fields looked up by key, each a string). -/
def decodeEntry : Json → Option Entry
  | Json.obj kvs =>
    match jLookup kvs "ssh_ip", jLookup kvs "ssh_user",
          jLookup kvs "ssh_password", jLookup kvs "remote_path" with
    | some (Json.str a), some (Json.str b), some (Json.str c), some (Json.str d) =>
      some (Entry.mk a b c d)
    | _, _, _, _ => none
  | _ => none

/-- Reading back a list of entry dicts. -/
def decodeEntries : List Json → Option (List Entry)
  | [] => some []
  | j :: js =>
    match decodeEntry j, decodeEntries js with
    | some e, some es => some (e :: es)
    | _, _ => none

/-- Extracting (entries, last_selected_idx) from a loaded dict the way
application does: data["entries"] and data["last_selected_idx"]. -/
def getStore (j : Json) : Option (List Entry × Int) :=
  match j with
  | Json.obj kvs =>
    match jLookup kvs "entries", jLookup kvs "last_selected_idx" with
    | some (Json.arr xs), some (Json.int i) =>
      (decodeEntries xs).map (fun es => (es, i))
    | _, _ => none
  | _ => none

/-- save_entries then load_entries then field extraction, as one function:
the store contents observed after a save/load round trip. -/
def roundTrip (entries : List Entry) (last_selected_idx : Int) :
    Option (List Entry × Int) :=
  match load_entries (save_entries entries last_selected_idx) with
  | Except.ok j => getStore j
  | Except.error _ => none

/-- remove_entry from cli.py lines 62-76: del entries[idx] when
0 <= idx < len(entries), otherwise the list is returned unchanged. -/
def remove_entry (entries : List Entry) (idx : Int) : List Entry :=
  if 0 ≤ idx ∧ idx < (entries.length : Int) then entries.eraseIdx idx.toNat
  else entries

/-- The in-memory store: the ordered entry list plus the last-selected
index (-1 meaning none). -/
structure Store where
  entries : List Entry
  last_selected_idx : Int
deriving DecidableEq, Repr

/-- The store-level remove operation of the Profile Store contract:
remove_entry receives and returns only the entries list and never touches
last_selected_idx, so at store level the index is carried through
unchanged. -/
def storeRemove (s : Store) (idx : Int) : Store :=
  Store.mk (remove_entry s.entries idx) s.last_selected_idx

/-- The removal handler of application, cli.py lines 326-337: on a
('remove', idx) action the driver replaces entries by
remove_entry(entries, idx), then resets last_selected_idx to -1 if the
list is now empty and otherwise to min(last_selected_idx, len(entries)-1),
and saves. -/
def driverRemove (s : Store) (idx : Int) : Store :=
  let es := remove_entry s.entries idx
  Store.mk es
    (if es.isEmpty then -1 else min s.last_selected_idx ((es.length : Int) - 1))

/-! ### Menu Controller: interactive_select, cli.py lines 168-233 -/

/-- curses.KEY_UP (ncurses keycode 259). -/
def KEY_UP : Int := 259

/-- curses.KEY_DOWN (ncurses keycode 258). -/
def KEY_DOWN : Int := 258

/-- The terminal outputs of one interactive_select invocation: the raw
return values selected index, None (add), 'clear', ('remove', idx),
'quit', and the KeyboardInterrupt raised on Ctrl+C. -/
inductive MenuOutput where
  | selected (idx : Int) : MenuOutput
  | addRequested : MenuOutput
  | clearRequested : MenuOutput
  | removeRequested (idx : Int) : MenuOutput
  | quit : MenuOutput
  | interrupted : MenuOutput
deriving DecidableEq, Repr

/-- The result of processing one keystroke of the while-loop of
interactive_select: either the loop continues with a (possibly updated)
selected_idx after calling display_menu (redraw = true records that
display_menu ran for this keystroke), or the invocation ends with a
terminal output. -/
inductive StepResult where
  | moreKeys (selected_idx : Int) (redraw : Bool) : StepResult
  | done (out : MenuOutput) : StepResult
deriving DecidableEq, Repr

/-- One iteration of the while-loop of interactive_select (cli.py lines
205-228) on keystroke key, with the current entries list and cursor
selected_idx. The if/elif chain is transcribed in source order; every
branch that does not return or raise falls through to
display_menu(selected_idx) at the bottom of the loop body, so every
moreKeys result carries redraw = true. -/
def menuStep (entries : List Entry) (selected_idx : Int) (key : Int) :
    StepResult :=
  if key = KEY_UP then
    StepResult.moreKeys
      (if selected_idx > 0 then selected_idx - 1 else selected_idx) true
  else if key = KEY_DOWN then
    StepResult.moreKeys
      (if selected_idx < (entries.length : Int) - 1 then selected_idx + 1
       else selected_idx) true
  else if key = 13 then StepResult.done (MenuOutput.selected selected_idx)
  else if key = 110 then StepResult.done MenuOutput.addRequested
  else if key = 97 then StepResult.done MenuOutput.clearRequested
  else if key = 99 then StepResult.done (MenuOutput.removeRequested selected_idx)
  else if key = 113 then StepResult.done MenuOutput.quit
  else if key = 3 then StepResult.done MenuOutput.interrupted
  else StepResult.moreKeys selected_idx true

/-- The cursor after one keystroke while Browsing: the updated selected_idx
on a continuing step, and the current one if the keystroke ended the
invocation (the Browsing state no longer exists then, so carrying the
cursor keeps the invariant statement uniform). -/
def cursorAfter (entries : List Entry) (selected_idx key : Int) : Int :=
  match menuStep entries selected_idx key with
  | StepResult.moreKeys c _ => c
  | StepResult.done _ => selected_idx

/-- The cursor reached from an initial cursor by a sequence of keystrokes. -/
def cursorRun (entries : List Entry) (c0 : Int) (keys : List Int) : Int :=
  keys.foldl (cursorAfter entries) c0

/-! ### Transfer path: send_file, cli.py lines 119-165 -/

/-- The externally observable effects of one send_file call, in program
order. connectCall is the ssh.connect(...) inside create_ssh_client (the
network session being opened); localSizeCheck is os.path.getsize(filename),
the first and only point where the local file's existence is examined. -/
inductive NetEffect where
  | connectCall : NetEffect
  | reportConnectError : NetEffect
  | localSizeCheck : NetEffect
  | reportFileNotFound : NetEffect
  | progressInit : NetEffect
  | scpPut : NetEffect
  | reportSuccess : NetEffect
  | reportError : NetEffect
  | closeSession : NetEffect
deriving DecidableEq, Repr

/-- The effect trace of send_file, parametrised by whether the remote
connection succeeds (create_ssh_client returns a client rather than None),
whether the local file exists (os.path.getsize succeeds), and whether the
SCP upload succeeds. send_file first calls create_ssh_client and returns
if it failed; only then does it call os.path.getsize, whose
FileNotFoundError is caught and reported; otherwise it creates the
progress bar, runs scp.put, and reports the outcome. The finally block
closes the client whenever one was obtained. -/
def send_file (connOk fileExists uploadOk : Bool) : List NetEffect :=
  if !connOk then [NetEffect.connectCall, NetEffect.reportConnectError]
  else if !fileExists then
    [NetEffect.connectCall, NetEffect.localSizeCheck,
     NetEffect.reportFileNotFound, NetEffect.closeSession]
  else if uploadOk then
    [NetEffect.connectCall, NetEffect.localSizeCheck, NetEffect.progressInit,
     NetEffect.scpPut, NetEffect.reportSuccess, NetEffect.closeSession]
  else
    [NetEffect.connectCall, NetEffect.localSizeCheck, NetEffect.progressInit,
     NetEffect.scpPut, NetEffect.reportError, NetEffect.closeSession]

/-- Position of the first occurrence of an effect in a trace. -/
def firstAt (e : NetEffect) : List NetEffect → Option Nat
  | [] => none
  | x :: xs =>
    if x = e then some 0 else (firstAt e xs).map (fun n => n + 1)

/-- Whether the first occurrence of a comes strictly before the first
occurrence of b in the trace (false when either is absent). -/
def before (a b : NetEffect) (tr : List NetEffect) : Bool :=
  match firstAt a tr, firstAt b tr with
  | some i, some j => i < j
  | _, _ => false

/-! ### Application Driver: application, cli.py lines 271-361 -/

/-- Python list indexing xs[i]: a direct hit for 0 ≤ i < len, wrap-around
for -len ≤ i < 0, IndexError (none) otherwise. -/
def pyGet {α : Type} (xs : List α) (i : Int) : Option α :=
  if 0 ≤ i then xs.get? i.toNat
  else if 0 ≤ i + (xs.length : Int) then xs.get? (i + (xs.length : Int)).toNat
  else none

/-- Outcome of the quiet (repeat-last) branch of application. -/
inductive QuietResult where
  | noConnections : QuietResult
  | transfer (e : Entry) : QuietResult
  | indexError : QuietResult
deriving DecidableEq, Repr

/-- The quiet (--quiet) branch of application, cli.py lines 290-307: after
loading, a stored last_selected_idx of -1 is replaced by 0 in memory
(lines 295-296); then with --quiet an empty entries list prints "No
connections found. Add a new connection." and returns, and otherwise
send_file is invoked with entries[last_selected_idx] (raising IndexError
when that subscript is out of range). -/
def quietMode (entries : List Entry) (storedIdx : Int) : QuietResult :=
  let idx := if storedIdx = -1 then 0 else storedIdx
  if entries.isEmpty then QuietResult.noConnections
  else
    match pyGet entries idx with
    | some e => QuietResult.transfer e
    | none => QuietResult.indexError

/-- Store/terminal effects of the application driver. -/
inductive AppEffect where
  | loadStore : AppEffect
  | saveStore : AppEffect
  | endwin : AppEffect
  | printMsg : AppEffect
  | sendFile : AppEffect
  | fatalError : AppEffect
deriving DecidableEq, Repr

/-- The effect trace of application in quiet mode, cli.py lines 290-307:
load_entries, curses.endwin, then either the no-connections message, or
the copy message followed by the send_file call (or an uncaught IndexError
when the stored index is out of range). No branch of this path calls
save_entries. -/
def quietTrace (entries : List Entry) (storedIdx : Int) : List AppEffect :=
  let idx := if storedIdx = -1 then 0 else storedIdx
  AppEffect.loadStore ::
    AppEffect.endwin ::
      (if entries.isEmpty then [AppEffect.printMsg]
       else
         match pyGet entries idx with
         | some _ => [AppEffect.printMsg, AppEffect.sendFile]
         | none => [AppEffect.fatalError])

/-- A concrete entry used to instantiate theorems on concrete inputs
(the profile of end-to-end scenario 1 of the specification). -/
def sE1 : Entry := Entry.mk "10.0.0.5" "svc" "x" "/tmp/out"

/-- A second concrete entry for multi-profile instances. -/
def sE2 : Entry := Entry.mk "192.168.1.9" "deploy" "pw" "/srv/app"

end SendDeploy

namespace SendDeploy

/-! ## Theorems -/

/-- C1. The claim states that on an empty profile list Enter and 'c' are
no-ops emitting no Selected and no RemoveRequested output. The code
violates this: with entries = [] and cursor 0 (the startup value, since
application maps a stored -1 to 0 before calling interactive_select),
Enter (key 13) returns selected_idx — a Selected(0) output — and 'c'
(key 99) returns ('remove', 0) — a RemoveRequested(0) output; Up and Down
are indeed no-ops. The driver then evaluates entries[0] on the empty list
for the Selected output, which raises IndexError (pyGet [] 0 = none),
crashing the program. -/
theorem c1_empty_enter_c_emit :
    menuStep [] 0 13 = StepResult.done (MenuOutput.selected 0) ∧
    menuStep [] 0 99 = StepResult.done (MenuOutput.removeRequested 0) ∧
    menuStep [] 0 KEY_UP = StepResult.moreKeys 0 true ∧
    menuStep [] 0 KEY_DOWN = StepResult.moreKeys 0 true ∧
    pyGet ([] : List Entry) 0 = none := by
  decide

/-- C2 counterexample. The claim states that for a missing local file no
session-open effect precedes the local-file existence check. In the code,
with the connection succeeding, send_file emits the connectCall (the
ssh.connect inside create_ssh_client) strictly before the
os.path.getsize check, and still reports file-not-found. -/
theorem c2_counterexample :
    NetEffect.reportFileNotFound ∈ send_file true false true ∧
    NetEffect.localSizeCheck ∈ send_file true false true ∧
    before NetEffect.connectCall NetEffect.localSizeCheck
      (send_file true false true) = true := by
  decide

/-- C2 amended. For a missing local file: send_file always begins with the
connect call (the session open comes first); when the connection succeeds
it then reaches the local-file check and reports file-not-found, the
session open preceding the check; when the connection fails, the local
file is never examined at all. -/
theorem c2_amended :
    ∀ uploadOk : Bool,
      ((send_file true false uploadOk).head? = some NetEffect.connectCall ∧
       (send_file false false uploadOk).head? = some NetEffect.connectCall) ∧
      NetEffect.reportFileNotFound ∈ send_file true false uploadOk ∧
      before NetEffect.connectCall NetEffect.localSizeCheck
        (send_file true false uploadOk) = true ∧
      NetEffect.localSizeCheck ∉ send_file false false uploadOk := by
  decide

/-- C3 counterexample. The claim states loading never raises a fatal error
and any malformed content yields the empty default. A file whose content
is the valid JSON text "[]" (an array, not an object) makes load_entries
execute data['entries'] = [] on a list, which raises a TypeError that its
except clauses do not catch: a fatal error, not the default store. -/
theorem c3_counterexample :
    load_entries (FileContent.parsed (Json.arr [])) =
      Except.error PyError.typeError ∧
    load_entries (FileContent.parsed (Json.arr [])) ≠
      Except.ok defaultData :=
  ⟨rfl, fun h => Except.noConfusion h⟩

/-- C3 amended. A missing file and syntactically invalid (non-JSON) content
both yield the empty default store {entries: [], last_selected_idx: -1}
without error; but syntactically valid JSON whose top level is not an
object can escape with an uncaught TypeError (e.g. the array []). -/
theorem c3_amended :
    load_entries FileContent.missing = Except.ok defaultData ∧
    (∀ raw : String, load_entries (FileContent.notJson raw) =
      Except.ok defaultData) ∧
    getStore defaultData = some ([], -1) ∧
    load_entries (FileContent.parsed (Json.arr [])) =
      Except.error PyError.typeError :=
  ⟨rfl, fun _ => rfl, rfl, rfl⟩

/-- C5 counterexample. The claim states an unrecognized key emits no render
effect. On a one-entry list with cursor 0, the unrecognized key 'x'
(code 120) leaves the cursor unchanged but the loop still falls through to
display_menu, i.e. the step redraws (redraw = true). -/
theorem c5_counterexample :
    menuStep [sE1] 0 120 = StepResult.moreKeys 0 true := by
  decide

/-- C5 amended. For every Browsing state, an unrecognized key (none of Up,
Down, Enter, 'n', 'a', 'c', 'q', Ctrl+C) leaves the cursor unchanged, but
the menu is still redrawn for that keystroke (display_menu runs at the
bottom of the loop body for every non-terminating key). -/
theorem c5_amended (entries : List Entry) (c key : Int)
    (h : key ∉ ([KEY_UP, KEY_DOWN, 13, 110, 97, 99, 113, 3] : List Int)) :
    menuStep entries c key = StepResult.moreKeys c true := by
  simp only [List.mem_cons, List.not_mem_nil, or_false, not_or] at h
  obtain ⟨h1, h2, h3, h4, h5, h6, h7, h8⟩ := h
  simp [menuStep, h1, h2, h3, h4, h5, h6, h7, h8]

/-- C5 amended, witness at the unrecognized key 'x' (120) on the empty
list with cursor 0. -/
theorem c5_witness :
    (120 : Int) ∉ ([KEY_UP, KEY_DOWN, 13, 110, 97, 99, 113, 3] : List Int) ∧
    menuStep [] 0 120 = StepResult.moreKeys 0 true :=
  ⟨by decide, c5_amended [] 0 120 (by decide)⟩

/-- C7. remove on the store with an out-of-bounds index (including every
negative index) is a no-op: the entry list and the last-selected index are
both returned unchanged, and no error is raised. -/
theorem c7_remove_out_of_bounds (s : Store) (i : Int)
    (h : ¬(0 ≤ i ∧ i < (s.entries.length : Int))) :
    storeRemove s i = s := by
  cases s with
  | mk es li => simp [storeRemove, remove_entry, h]

/-- C7 witness: removing index -1 from a one-entry store. -/
theorem c7_witness :
    ¬((0 : Int) ≤ -1 ∧ (-1 : Int) < ((Store.mk [sE1] 0).entries.length : Int)) ∧
    storeRemove (Store.mk [sE1] 0) (-1) = Store.mk [sE1] 0 :=
  ⟨by decide, c7_remove_out_of_bounds (Store.mk [sE1] 0) (-1) (by decide)⟩

/-- C9. Repeat-last mode: for every non-empty store the driver maps a
stored last_selected_idx of -1 to 0 and invokes the transfer with the
first profile (no error); for the empty store it reports the
no-connections message and never reaches the transfer call. -/
theorem c9_repeat_last :
    (∀ (e : Entry) (es : List Entry),
      quietMode (e :: es) (-1) = QuietResult.transfer e) ∧
    (∀ i : Int, quietMode [] i = QuietResult.noConnections) :=
  ⟨fun _ _ => rfl, fun _ => rfl⟩

/-- C10. The quiet (repeat-last) path of application never saves the
store: no branch of its effect trace contains the saveStore effect, so
the persisted file is untouched even when the in-memory index was
reinterpreted from -1 to 0. -/
theorem c10_quiet_no_save (entries : List Entry) (storedIdx : Int) :
    AppEffect.saveStore ∉ quietTrace entries storedIdx := by
  unfold quietTrace
  split <;> split
  any_goals simp
  all_goals split <;> simp

/-- Helper for C4: one keystroke preserves the cursor bounds. -/
lemma cursorAfter_bounds (entries : List Entry) (c key : Int)
    (h0 : 0 ≤ c) (h1 : c < (entries.length : Int)) :
    0 ≤ cursorAfter entries c key ∧
    cursorAfter entries c key < (entries.length : Int) := by
  unfold cursorAfter
  rcases hm : menuStep entries c key with ⟨c1, r⟩ | out
  · unfold menuStep at hm
    split_ifs at hm <;> simp_all <;> omega
  · exact ⟨h0, h1⟩

/-- C4. Cursor invariant of the Browsing state machine: for a non-empty
entry list and an initial cursor within [0, length-1], the cursor reached
after any sequence of keystrokes stays within [0, length-1]. -/
theorem c4_cursor_invariant (entries : List Entry) (c0 : Int)
    (keys : List Int) (_hne : entries ≠ []) (h0 : 0 ≤ c0)
    (h1 : c0 < (entries.length : Int)) :
    0 ≤ cursorRun entries c0 keys ∧
    cursorRun entries c0 keys < (entries.length : Int) := by
  clear _hne
  induction keys generalizing c0 with
  | nil => exact ⟨h0, h1⟩
  | cons k ks ih =>
    have hb := cursorAfter_bounds entries c0 k h0 h1
    simpa [cursorRun, List.foldl_cons] using ih (cursorAfter entries c0 k) hb.1 hb.2

/-- C4 witness: a two-entry list, initial cursor 1, and a key sequence
containing Up twice (the second clamped at 0), an unrecognized key and
Down. -/
theorem c4_witness :
    ([sE1, sE2] : List Entry) ≠ [] ∧ (0 : Int) ≤ 1 ∧
    (1 : Int) < (([sE1, sE2] : List Entry).length : Int) ∧
    (0 ≤ cursorRun [sE1, sE2] 1 [KEY_UP, KEY_UP, 120, KEY_DOWN] ∧
     cursorRun [sE1, sE2] 1 [KEY_UP, KEY_UP, 120, KEY_DOWN] <
       (([sE1, sE2] : List Entry).length : Int)) :=
  ⟨by decide, by decide, by decide,
   c4_cursor_invariant [sE1, sE2] 1 [KEY_UP, KEY_UP, 120, KEY_DOWN]
     (by decide) (by decide) (by decide)⟩

/-- Helper for C6: decoding an encoded entry gives the entry back. -/
lemma decodeEntry_encodeEntry (e : Entry) :
    decodeEntry (encodeEntry e) = some e := rfl

/-- Helper for C6: decoding an encoded entry list gives the list back. -/
lemma decodeEntries_map_encode (es : List Entry) :
    decodeEntries (es.map encodeEntry) = some es := by
  induction es with
  | nil => rfl
  | cons e es ih =>
    simp only [List.map_cons, decodeEntries, decodeEntry_encodeEntry, ih]

/-- C6. Round-trip law: saving a profile list and a valid last-selected
index and then loading reproduces exactly the same list and index. -/
theorem c6_round_trip (es : List Entry) (i : Int)
    (_h : i = -1 ∨ (0 ≤ i ∧ i < (es.length : Int))) :
    roundTrip es i = some (es, i) := by
  have hr : roundTrip es i =
      (decodeEntries (es.map encodeEntry)).map (fun p => (p, i)) := rfl
  rw [hr, decodeEntries_map_encode]
  rfl

/-- C6 witness: a one-entry store with index 0 round-trips. -/
theorem c6_witness :
    ((0 : Int) = -1 ∨ ((0 : Int) ≤ 0 ∧
      (0 : Int) < (([sE1] : List Entry).length : Int))) ∧
    roundTrip [sE1] 0 = some ([sE1], 0) :=
  ⟨by decide, c6_round_trip [sE1] 0 (by decide)⟩

/-- C8. Removal of a valid index through the driver: the entry list
shrinks by exactly one, and last_selected_idx is re-clamped to -1 when
the list becomes empty and to min(last_selected_idx, new_length-1)
otherwise, which lands it in [-1, new_length-1] (given the store
invariant -1 ≤ last_selected_idx). -/
theorem c8_driver_remove_valid (s : Store) (i : Int)
    (h0 : 0 ≤ i) (h1 : i < (s.entries.length : Int))
    (hl : -1 ≤ s.last_selected_idx) :
    (driverRemove s i).entries.length = s.entries.length - 1 ∧
    ((driverRemove s i).last_selected_idx =
      if (driverRemove s i).entries.isEmpty then -1
      else min s.last_selected_idx
        (((driverRemove s i).entries.length : Int) - 1)) ∧
    -1 ≤ (driverRemove s i).last_selected_idx ∧
    (driverRemove s i).last_selected_idx ≤
      ((driverRemove s i).entries.length : Int) - 1 := by
  have hi : i.toNat < s.entries.length := by omega
  have hlen : (remove_entry s.entries i).length = s.entries.length - 1 := by
    unfold remove_entry
    rw [if_pos ⟨h0, h1⟩]
    have := List.length_eraseIdx_add_one hi
    omega
  refine ⟨hlen, rfl, ?_, ?_⟩
  · show -1 ≤ (if (remove_entry s.entries i).isEmpty then (-1 : Int)
      else min s.last_selected_idx
        (((remove_entry s.entries i).length : Int) - 1))
    split
    · omega
    · exact le_min hl (by omega)
  · show (if (remove_entry s.entries i).isEmpty then (-1 : Int)
      else min s.last_selected_idx
        (((remove_entry s.entries i).length : Int) - 1)) ≤
      ((remove_entry s.entries i).length : Int) - 1
    split
    · rename_i hE
      rw [List.isEmpty_iff_length_eq_zero] at hE
      omega
    · exact min_le_right _ _

/-- C8 witness: end-to-end scenario 2 of the specification — a store with
three profiles and last_selected_idx 2, removing index 2: the list shrinks
to length 2 and the index is re-clamped to min(2, 1) = 1 ∈ [-1, 1]. -/
theorem c8_witness :
    ((0 : Int) ≤ 2 ∧
     (2 : Int) < ((Store.mk [sE1, sE2, sE1] 2).entries.length : Int) ∧
     (-1 : Int) ≤ (Store.mk [sE1, sE2, sE1] 2).last_selected_idx) ∧
    ((driverRemove (Store.mk [sE1, sE2, sE1] 2) 2).entries.length =
       (Store.mk [sE1, sE2, sE1] 2).entries.length - 1 ∧
     ((driverRemove (Store.mk [sE1, sE2, sE1] 2) 2).last_selected_idx =
       if (driverRemove (Store.mk [sE1, sE2, sE1] 2) 2).entries.isEmpty
       then -1
       else min (Store.mk [sE1, sE2, sE1] 2).last_selected_idx
         (((driverRemove (Store.mk [sE1, sE2, sE1] 2) 2).entries.length : Int)
           - 1)) ∧
     -1 ≤ (driverRemove (Store.mk [sE1, sE2, sE1] 2) 2).last_selected_idx ∧
     (driverRemove (Store.mk [sE1, sE2, sE1] 2) 2).last_selected_idx ≤
       ((driverRemove (Store.mk [sE1, sE2, sE1] 2) 2).entries.length : Int)
         - 1) :=
  ⟨⟨by decide, by decide, by decide⟩,
   c8_driver_remove_valid (Store.mk [sE1, sE2, sE1] 2) 2
     (by decide) (by decide) (by decide)⟩

end SendDeploy
